import Mathlib

/-!
# Scoreboard controller: shallow embedding of `src/firmware/main.c`

The firmware is a UART-framed command decoder/dispatcher mutating global
scoreboard state, plus a timer-interrupt digit multiplexer.  We embed:

* `ScoreboardState` — the global variables `timer_minutes`, `timer_seconds`,
  `red_score`, `blue_score`, `match_active`, `red_led_state`,
  `blue_led_state`, and the derived `display_buffer` array.
* `update_display_buffer` — the eponymous C function (lines 169-183).
* `decode_frame` / `dispatch` / `process_uart_command` — the
  `process_uart_command` C function (lines 185-277), split into its frame
  validation phase and its `switch` dispatch phase.  `uart_read` on the
  byte stream is modelled by consuming the head of an input list; a read
  from an exhausted stream blocks forever, modelled as `none`.
  `uart_write` is modelled by appending to an output list.
* `mux_next` / `mux_select` / `ISR_tick` / `slotSeq` — the Timer0 branch of
  the `ISR` (lines 80-101): one multiplexer tick and the sequence of slots
  it activates over successive ticks.

Bytes are modelled as `Nat`; none of the embedded code paths overflow a
`uint8` when fed byte inputs (XOR of bytes is a byte, and no arithmetic is
performed on stored bytes other than `/ 10` and `% 10`).
-/

/-- The `seg_patterns` table (main.c lines 45-56): common-cathode
7-segment patterns for the decimal digits 0-9. -/
def seg_patterns : List Nat :=
  [0x3F, 0x06, 0x5B, 0x4F, 0x66, 0x6D, 0x7D, 0x07, 0x7F, 0x6F]

/-- The global mutable state of the firmware (main.c lines 59-67), with the
derived `display_buffer` (line 63).  `red_led_state` / `blue_led_state` are
the spec's `redIndicator` / `blueIndicator`. -/
structure ScoreboardState where
  timer_minutes : Nat
  timer_seconds : Nat
  red_score : Nat
  blue_score : Nat
  match_active : Bool
  red_led_state : Bool
  blue_led_state : Bool
  display_buffer : List Nat
deriving Repr, DecidableEq

/-- The six `seg_patterns` indices computed by `update_display_buffer`
(main.c lines 171-178): tens and ones digits of minutes, seconds and the
red score, in display-slot order 0-5. -/
def displayIndices (s : ScoreboardState) : List Nat :=
  [s.timer_minutes / 10, s.timer_minutes % 10,
   s.timer_seconds / 10, s.timer_seconds % 10,
   s.red_score / 10, s.red_score % 10]

/-- `update_display_buffer` (main.c lines 169-183): recompute the six
display slots from the current state.  The C code indexes `seg_patterns`
unchecked; we model the lookup with `getD` and reason about the computed
indices separately. -/
def update_display_buffer (s : ScoreboardState) : ScoreboardState :=
  { s with display_buffer := (displayIndices s).map (fun i => seg_patterns.getD i 0) }

/-- XOR-fold of a byte list, as in the checksum loop of main.c
lines 214-217. -/
def xor_fold (init : Nat) (data : List Nat) : Nat :=
  data.foldl (fun a b => a ^^^ b) init

/-- The checksum the firmware expects: `cmd ^ data_len ^ (XOR of data)`
(main.c lines 214-217). -/
def frame_checksum (cmd data_len : Nat) (data : List Nat) : Nat :=
  xor_fold (cmd ^^^ data_len) data

/-- A validated command: opcode plus payload, as produced by the frame
validation phase of `process_uart_command`. -/
structure Command where
  opcode : Nat
  payload : List Nat
deriving Repr, DecidableEq

/-- Read `n` bytes from the stream (the payload loop, main.c lines
202-204); `none` when the stream has fewer than `n` bytes (the C code
would block forever in `uart_read`). -/
def read_bytes (n : Nat) (input : List Nat) : Option (List Nat × List Nat) :=
  if n ≤ input.length then some (input.take n, input.drop n) else none

/-- The frame validation phase of `process_uart_command` (main.c lines
190-219).  Result: `none` if the stream is exhausted mid-frame (the C code
blocks); `some (none, rest)` if the frame attempt is rejected after
consuming the bytes up to `rest`; `some (some c, rest)` if a validated
command `c` was decoded. -/
def decode_frame (input : List Nat) : Option (Option Command × List Nat) :=
  match input with
  | [] => none
  | start :: r1 =>
    if start ≠ 0xAA then some (none, r1)
    else
      match r1 with
      | [] => none
      | cmd :: r2 =>
        match r2 with
        | [] => none
        | data_len :: r3 =>
          if data_len > 10 then some (none, r3)
          else
            match read_bytes data_len r3 with
            | none => none
            | some (data, r4) =>
              match r4 with
              | [] => none
              | checksum :: r5 =>
                match r5 with
                | [] => none
                | endB :: r6 =>
                  if endB ≠ 0x55 then some (none, r6)
                  else if checksum ≠ frame_checksum cmd data_len data then
                    some (none, r6)
                  else some (some ⟨cmd, data⟩, r6)

/-- The `switch (cmd)` dispatch phase of `process_uart_command` (main.c
lines 222-276).  Returns the new state and the bytes written with
`uart_write`.  `data.getD i 0` is `data[i]`, defined whenever the length
guards of the C code hold; assigning a byte to a C `bool` tests it against
zero. -/
def dispatch (cmd : Nat) (data : List Nat) (s : ScoreboardState) :
    ScoreboardState × List Nat :=
  if cmd = 0x01 then  -- CMD_UPDATE_SCORE
    if 2 ≤ data.length then
      (update_display_buffer
        { s with red_score := data.getD 0 0, blue_score := data.getD 1 0 }, [])
    else (s, [])
  else if cmd = 0x02 then  -- CMD_UPDATE_TIMER
    if 2 ≤ data.length then
      (update_display_buffer
        { s with timer_minutes := data.getD 0 0, timer_seconds := data.getD 1 0 }, [])
    else (s, [])
  else if cmd = 0x03 then  -- CMD_START_MATCH
    ({ s with match_active := true, red_led_state := true, blue_led_state := true }, [])
  else if cmd = 0x04 then  -- CMD_STOP_MATCH
    ({ s with match_active := false, red_led_state := false, blue_led_state := false }, [])
  else if cmd = 0x05 then  -- CMD_RESET_MATCH
    (update_display_buffer
      { s with timer_minutes := 2, timer_seconds := 30,
               red_score := 0, blue_score := 0, match_active := false }, [])
  else if cmd = 0x06 then  -- CMD_PING
    (s, [0xAA, 0xCC, 0x55])
  else if cmd = 0x07 then  -- CMD_SET_LED
    if 2 ≤ data.length then
      if data.getD 0 0 = 0x01 then
        ({ s with red_led_state := data.getD 1 0 != 0 }, [])
      else if data.getD 0 0 = 0x02 then
        ({ s with blue_led_state := data.getD 1 0 != 0 }, [])
      else (s, [])
    else (s, [])
  else (s, [])

/-- One full `process_uart_command` pass (main.c lines 185-277): decode a
frame attempt from the stream, then dispatch the command if one was
validated.  Returns the unconsumed stream, the new state and the output
bytes; `none` when the pass blocks on an exhausted stream. -/
def process_uart_command (input : List Nat) (s : ScoreboardState) :
    Option (List Nat × ScoreboardState × List Nat) :=
  match decode_frame input with
  | none => none
  | some (none, rest) => some (rest, s, [])
  | some (some c, rest) =>
    let r := dispatch c.opcode c.payload s
    some (rest, r.1, r.2)

/-- Advance `current_digit` (main.c lines 96-99): increment, wrapping to 0
at 6. -/
def mux_next (d : Nat) : Nat :=
  if 6 ≤ d + 1 then 0 else d + 1

/-- The digit-select output `LATD = ~(1 << current_digit)` of main.c line
93, as an 8-bit value (select lines are active low).  For `d < 8` this is
the byte whose only zero bit is bit `d`. -/
def mux_select (d : Nat) : Nat :=
  255 - 2 ^ d % 256

/-- One Timer0 tick of the `ISR` (main.c lines 80-101): output
`(LATC, LATD, new current_digit)` — segment data for the active slot, the
one-hot-low digit select, and the advanced digit counter. -/
def ISR_tick (buf : List Nat) (d : Nat) : Nat × Nat × Nat :=
  (buf.getD d 0, mux_select d, mux_next d)

/-- The slots activated by `n` successive multiplexer ticks starting with
`current_digit = d`. -/
def slotSeq (d : Nat) : Nat → List Nat
  | 0 => []
  | n + 1 => d :: slotSeq (mux_next d) n

/-- The select lines (among the six wired lines RD0-RD5) that a given
`LATD` value enables: active low, so line `i` is enabled when bit `i` is
clear. -/
def enabled_lines (latd : Nat) : List Nat :=
  (List.range 6).filter (fun i => !(latd.testBit i))

/-- The power-on state (main.c lines 59-67) after the initial
`update_display_buffer` call in `main` (line 113). -/
def initial_state : ScoreboardState :=
  update_display_buffer
    { timer_minutes := 2, timer_seconds := 30, red_score := 0, blue_score := 0,
      match_active := false, red_led_state := false, blue_led_state := false,
      display_buffer := [0, 0, 0, 0, 0, 0] }

/-- A state in which a match ran and the red indicator was switched on:
used to exercise dispatch against non-default prior states. -/
def state_red_on : ScoreboardState :=
  { timer_minutes := 1, timer_seconds := 5, red_score := 7, blue_score := 3,
    match_active := true, red_led_state := true, blue_led_state := false,
    display_buffer := [0, 0, 0, 0, 0, 0] }

/-! ## Theorems -/

/-- C1, counterexample: from the prior state `state_red_on` (red indicator
on), dispatching `ResetMatch` (0x05) leaves the red indicator on — the
result is not the claimed exact default state with `redIndicator = false`. -/
theorem reset_match_keeps_red_indicator :
    (dispatch 0x05 [] state_red_on).1.red_led_state = true := by
  decide

/-- C1, amended: dispatching `ResetMatch` (0x05) from any prior state sets
`timerMinutes = 2`, `timerSeconds = 30`, `redScore = 0`, `blueScore = 0`
and `matchActive = false`, while `redIndicator` and `blueIndicator` retain
their prior values. -/
theorem reset_match_effect (s : ScoreboardState) (data : List Nat) :
    (dispatch 0x05 data s).1.timer_minutes = 2 ∧
    (dispatch 0x05 data s).1.timer_seconds = 30 ∧
    (dispatch 0x05 data s).1.red_score = 0 ∧
    (dispatch 0x05 data s).1.blue_score = 0 ∧
    (dispatch 0x05 data s).1.match_active = false ∧
    (dispatch 0x05 data s).1.red_led_state = s.red_led_state ∧
    (dispatch 0x05 data s).1.blue_led_state = s.blue_led_state := by
  simp [dispatch, update_display_buffer]

/-- C5: dispatching `UpdateScore` (0x01) with payload `[12, 34]` sets
`redScore = 12` and `blueScore = 34`, and after the display recomputation
the red-tens slot (index 4) holds the segment pattern for digit 1 and the
red-ones slot (index 5) the pattern for digit 2. -/
theorem update_score_12_34 (s : ScoreboardState) :
    (dispatch 0x01 [12, 34] s).1.red_score = 12 ∧
    (dispatch 0x01 [12, 34] s).1.blue_score = 34 ∧
    (dispatch 0x01 [12, 34] s).1.display_buffer.getD 4 0 = seg_patterns.getD 1 0 ∧
    (dispatch 0x01 [12, 34] s).1.display_buffer.getD 5 0 = seg_patterns.getD 2 0 := by
  simp [dispatch, update_display_buffer, displayIndices]

/-- C6: dispatching `Ping` (0x06) writes exactly the bytes
`0xAA, 0xCC, 0x55` in that order and leaves the whole state — every
`ScoreboardState` field and every `display_buffer` entry — unchanged. -/
theorem ping_effect (s : ScoreboardState) (data : List Nat) :
    dispatch 0x06 data s = (s, [0xAA, 0xCC, 0x55]) := by
  simp [dispatch]

/-- C7: dispatching `SetIndicator` (0x07) with a selector byte that is
neither 1 nor 2 is a no-op: the state (both indicator flags included) is
unchanged and nothing is written. -/
theorem set_indicator_bad_selector_noop (s : ScoreboardState)
    (sel b : Nat) (rest : List Nat) (h1 : sel ≠ 1) (h2 : sel ≠ 2) :
    dispatch 0x07 (sel :: b :: rest) s = (s, []) := by
  simp [dispatch, h1, h2]

/-- C7 witness: selector byte 3 on the concrete state `state_red_on`. -/
theorem set_indicator_bad_selector_noop_witness :
    (3 : Nat) ≠ 1 ∧ (3 : Nat) ≠ 2 ∧
    dispatch 0x07 [3, 1] state_red_on = (state_red_on, []) :=
  ⟨by decide, by decide,
    set_indicator_bad_selector_noop state_red_on 3 1 [] (by decide) (by decide)⟩

/-- C10: dispatching `UpdateScore` (0x01), `UpdateTimer` (0x02) or
`SetIndicator` (0x07) with a payload of length 0 or 1 leaves the state —
every field and every `display_buffer` entry — unchanged and writes
nothing: the short-payload frame is a silent no-op with no partial
application. -/
theorem short_payload_noop (cmd : Nat) (data : List Nat) (s : ScoreboardState)
    (hc : cmd = 0x01 ∨ cmd = 0x02 ∨ cmd = 0x07) (hlen : data.length ≤ 1) :
    dispatch cmd data s = (s, []) := by
  have h2 : ¬ (2 ≤ data.length) := by omega
  rcases hc with h | h | h <;> subst h <;> simp [dispatch, h2]

/-- C10 witness: `UpdateScore` with the one-byte payload `[12]` on the
concrete state `state_red_on`. -/
theorem short_payload_noop_witness :
    ([12] : List Nat).length ≤ 1 ∧
    dispatch 0x01 [12] state_red_on = (state_red_on, []) :=
  ⟨by decide,
    short_payload_noop 0x01 [12] state_red_on (Or.inl rfl) (by decide)⟩

/-- A state whose red score exceeds 99: its red-tens display index falls
outside the 0-9 domain of `seg_patterns`. -/
def state_over_99 : ScoreboardState :=
  { timer_minutes := 0, timer_seconds := 0, red_score := 100, blue_score := 0,
    match_active := false, red_led_state := false, blue_led_state := false,
    display_buffer := [0, 0, 0, 0, 0, 0] }

/-- C2: a well-formed frame — start 0xAA, any opcode, a declared length
equal to the payload length and at most 10, the checksum
`opcode XOR len XOR (XOR of payload)`, end 0x55 — is consumed exactly by
one decoding pass, which yields the validated command with the transmitted
opcode and payload and leaves the trailing stream untouched. -/
theorem decode_wellformed (op len : Nat) (payload rest : List Nat)
    (hlen : payload.length = len) (hle : len ≤ 10) :
    decode_frame
      (0xAA :: op :: len :: (payload ++ frame_checksum op len payload :: 0x55 :: rest))
      = some (some ⟨op, payload⟩, rest) := by
  subst hlen
  have h10 : ¬ (payload.length > 10) := by omega
  simp [decode_frame, read_bytes, h10, List.take_left, List.drop_left]

/-- C2 witness: the concrete `UpdateScore` frame with payload `[12, 34]`. -/
theorem decode_wellformed_witness :
    ([12, 34] : List Nat).length = 2 ∧ (2 : Nat) ≤ 10 ∧
    decode_frame
      (0xAA :: 0x01 :: 2 :: ([12, 34] ++ frame_checksum 0x01 2 [12, 34] :: 0x55 :: []))
      = some (some ⟨0x01, [12, 34]⟩, []) :=
  ⟨by decide, by decide, decode_wellformed 0x01 2 [12, 34] [] (by decide) (by decide)⟩

/-- C3: replacing the checksum byte of a well-formed frame by any other
byte value makes the decoding pass reject the frame: no command is
dispatched, the state is returned unchanged in every field, nothing is
written, and decoding resumes right after the frame. -/
theorem corrupt_checksum_rejected (op len c : Nat) (payload rest : List Nat)
    (s : ScoreboardState) (hlen : payload.length = len) (hle : len ≤ 10)
    (_hc : c < 256) (hne : c ≠ frame_checksum op len payload) :
    process_uart_command (0xAA :: op :: len :: (payload ++ c :: 0x55 :: rest)) s
      = some (rest, s, []) := by
  subst hlen
  have h10 : ¬ (payload.length > 10) := by omega
  simp [process_uart_command, decode_frame, read_bytes, h10, hne,
    List.take_left, List.drop_left]

/-- C3 witness: the `StartMatch` frame (opcode 0x03, empty payload) whose
checksum byte 0x03 is replaced by 0x00, against `state_red_on`. -/
theorem corrupt_checksum_rejected_witness :
    ([] : List Nat).length = 0 ∧ (0 : Nat) ≤ 10 ∧ (0 : Nat) < 256 ∧
    (0 : Nat) ≠ frame_checksum 0x03 0 [] ∧
    process_uart_command (0xAA :: 0x03 :: 0 :: ([] ++ 0 :: 0x55 :: [])) state_red_on
      = some ([], state_red_on, []) :=
  ⟨by decide, by decide, by decide, by decide,
    corrupt_checksum_rejected 0x03 0 0 [] [] state_red_on
      (by decide) (by decide) (by decide) (by decide)⟩

/-- C4: when the declared length byte exceeds 10, the decoder aborts right
after reading the start, opcode and length bytes: the remaining stream is
returned untouched (no payload, checksum or end bytes are consumed or
skipped), the state is unchanged, nothing is written, and the next pass
resumes at the very next byte. -/
theorem oversize_len_abort (op len : Nat) (rest : List Nat)
    (s : ScoreboardState) (h : 10 < len) :
    process_uart_command (0xAA :: op :: len :: rest) s = some (rest, s, []) := by
  simp [process_uart_command, decode_frame, h]

/-- C4 witness: a frame declaring LEN = 11 with four trailing bytes,
against `state_red_on`. -/
theorem oversize_len_abort_witness :
    (10 : Nat) < 11 ∧
    process_uart_command (0xAA :: 0x01 :: 11 :: [1, 2, 3, 0x55]) state_red_on
      = some ([1, 2, 3, 0x55], state_red_on, []) :=
  ⟨by decide, oversize_len_abort 0x01 11 [1, 2, 3, 0x55] state_red_on (by decide)⟩

/-- C8: from any `current_digit` in `[0, 6)`, six successive multiplexer
ticks activate the six digit slots exactly once each, in strictly
increasing cyclic order; at every tick the `LATD` digit-select value
enables exactly the active slot's line (one-hot, active low); and
`current_digit` stays in `[0, 6)` after every tick. -/
theorem mux_cycle_onehot :
    ∀ d, d < 6 →
      slotSeq d 6 = (List.range 6).map (fun k => (d + k) % 6) ∧
      (∀ j, j < 6 → (slotSeq d 6).count j = 1) ∧
      (∀ e ∈ slotSeq d 6, enabled_lines (mux_select e) = [e]) ∧
      (∀ e ∈ slotSeq d 6, mux_next e < 6) := by
  decide

/-- C8 witness: the slot sequence of six ticks starting at slot 0. -/
theorem mux_cycle_onehot_witness : slotSeq 0 6 = [0, 1, 2, 3, 4, 5] :=
  ((mux_cycle_onehot 0 (by decide)).1).trans (by decide)

/-- C9: whenever the timer fields and the red score are at most 99, every
`seg_patterns` index computed by the display recomputation lies in 0-9, so
checked table indexing never fails; and for the state `state_over_99`
(red score 100) a computed index exceeds 9, outside the table's domain. -/
theorem display_indices_domain (s : ScoreboardState)
    (h1 : s.timer_minutes ≤ 99) (h2 : s.timer_seconds ≤ 99)
    (h3 : s.red_score ≤ 99) :
    (∀ i ∈ displayIndices s, i ≤ 9) ∧
    (99 < state_over_99.red_score ∧ ∃ i ∈ displayIndices state_over_99, 9 < i) := by
  refine ⟨?_, by decide, by decide⟩
  intro i hi
  simp only [displayIndices, List.mem_cons, List.not_mem_nil, or_false] at hi
  rcases hi with h | h | h | h | h | h <;> subst h <;> omega

/-- C9 witness: the in-range half applied to `initial_state`, instantiated
at its red-tens index. -/
theorem display_indices_domain_witness :
    initial_state.red_score ≤ 99 ∧ initial_state.red_score / 10 ≤ 9 :=
  ⟨by decide,
    (display_indices_domain initial_state (by decide) (by decide) (by decide)).1
      (initial_state.red_score / 10) (by decide)⟩
